import Mathlib

set_option linter.unnecessarySeqFocus false

/-!
Shallow embedding of the task-tracking web application
(models/task.py and controllers/task_controller.py).

Datetimes are modelled following the Python datetime library: a value is
either naive (a local wall clock with no zone) or aware (a wall clock
together with a zone and a PEP 495 fold bit).  Wall clocks are counted in
seconds on a linear scale (the second count denoted by the calendar
fields YYYY-MM-DD HH:MM:SS relative to the Unix epoch); microseconds are
kept separately, as in Python.  The zone America/Chicago (LOCAL_TZ in
the source) is modelled from the IANA rules in force for the years
2024 to 2026: standard offset -21600 seconds (CST), daylight offset
-18000 seconds (CDT), with daylight time starting the second Sunday of
March at 08:00 UTC and ending the first Sunday of November at
07:00 UTC.
-/

/-- Standard-time UTC offset of America/Chicago (CST), in seconds. -/
def CST : Int := -21600

/-- Daylight-saving UTC offset of America/Chicago (CDT), in seconds. -/
def CDT : Int := -18000

/-- Daylight saving time is in effect in America/Chicago exactly on these
half-open UTC intervals (IANA data, years 2024, 2025, 2026). -/
def inDstUtc (t : Int) : Prop :=
  (1710057600 ≤ t ∧ t < 1730617200) ∨
  (1741507200 ≤ t ∧ t < 1762066800) ∨
  (1772956800 ≤ t ∧ t < 1793516400)

instance (t : Int) : Decidable (inDstUtc t) := by
  unfold inDstUtc; infer_instance

/-- UTC offset (seconds) of America/Chicago at a given UTC instant. -/
def chicagoOffsetUtc (t : Int) : Int := if inDstUtc t then CDT else CST

/-- UTC offset (seconds) that ZoneInfo America/Chicago assigns to a local
wall clock with the given PEP 495 fold bit.  With fold = false the wall
clock w is on daylight time exactly when w - CDT falls in a daylight
interval; with fold = true exactly when w - CST does.  This reproduces
the ZoneInfo rule that fold = false selects the offset in force before a
transition and fold = true the offset after it. -/
def chicagoOffsetWallFold (w : Int) (fold : Bool) : Int :=
  if inDstUtc (w - (if fold then CST else CDT)) then CDT else CST

/-- Local America/Chicago wall clock of a UTC instant. -/
def localize (t : Int) : Int := t + chicagoOffsetUtc t

/-- UTC instants whose Chicago wall clock is the second occurrence of a
repeated local time (the hour after the daylight-to-standard change):
conversion from UTC marks these with fold = true. -/
def inSecondFold (t : Int) : Prop :=
  (1730617200 ≤ t ∧ t < 1730620800) ∨
  (1762066800 ≤ t ∧ t < 1762070400) ∨
  (1793516400 ≤ t ∧ t < 1793520000)

instance (t : Int) : Decidable (inSecondFold t) := by
  unfold inSecondFold; infer_instance

/-- Fold bit that conversion from UTC to America/Chicago sets. -/
def foldOfUtc (t : Int) : Bool := decide (inSecondFold t)

/-- A Python tzinfo as the application can observe it: the ZoneInfo
America/Chicago object (LOCAL_TZ), or a fixed-offset zone. -/
inductive PyTz : Type where
  | chicago : PyTz
  | fixed (off : Int) : PyTz
deriving DecidableEq

/-- UTC offset a tzinfo assigns to a wall clock with a fold bit. -/
def PyTz.offsetAt : PyTz → Int → Bool → Int
  | .chicago, w, fold => chicagoOffsetWallFold w fold
  | .fixed off, _, _ => off

/-- A Python datetime value: naive (wall clock only) or aware (wall
clock, tzinfo, PEP 495 fold bit).  Microseconds are kept separately. -/
inductive PyDT : Type where
  | naive (wall : Int) (micro : Nat) : PyDT
  | aware (wall : Int) (tz : PyTz) (fold : Bool) (micro : Nat) : PyDT
deriving DecidableEq

/-- Whether the tzinfo of the value is None. -/
def PyDT.isNaive : PyDT → Bool
  | .naive _ _ => true
  | .aware _ _ _ _ => false

/-- Wall-clock second count of the value. -/
def PyDT.wallOf : PyDT → Int
  | .naive w _ => w
  | .aware w _ _ _ => w

/-- Microsecond field of the value. -/
def PyDT.microOf : PyDT → Nat
  | .naive _ mi => mi
  | .aware _ _ _ mi => mi

/-- UTC instant denoted by an aware value (wall clock minus offset).
On a naive value the wall clock itself is returned; the embedded code
never takes the instant of a naive value. -/
def PyDT.utcInstant : PyDT → Int
  | .naive w _ => w
  | .aware w tz fold _ => w - tz.offsetAt w fold

/-- replace tzinfo := LOCAL_TZ: keeps the wall clock and microseconds and
attaches America/Chicago.  All naive values built by the embedded code
carry fold = false, so the attached value has fold = false. -/
def PyDT.attachChicago : PyDT → PyDT
  | .naive w mi => .aware w .chicago false mi
  | .aware w _ _ mi => .aware w .chicago false mi

/-- astimezone LOCAL_TZ on an aware value: convert to the UTC instant and
re-express it on the Chicago wall clock, with the fold bit conversion
from UTC sets.  (The application only calls astimezone on aware values;
on a naive value we read the wall clock as already local.) -/
def PyDT.astimezoneChicago : PyDT → PyDT
  | .naive w mi =>
      let t := w - chicagoOffsetWallFold w false
      .aware (localize t) .chicago (foldOfUtc t) mi
  | .aware w tz fold mi =>
      let t := w - tz.offsetAt w fold
      .aware (localize t) .chicago (foldOfUtc t) mi

/-- replace microsecond := 0. -/
def PyDT.truncMicro : PyDT → PyDT
  | .naive w _ => .naive w 0
  | .aware w tz fold _ => .aware w tz fold 0

/-- datetime.now(LOCAL_TZ).replace(microsecond=0) at UTC instant t. -/
def nowChicago (t : Int) : PyDT := .aware (localize t) .chicago (foldOfUtc t) 0

/-- Python comparison a < b of two datetime values.  When both share the
LOCAL_TZ tzinfo object, CPython compares the wall clocks directly;
otherwise two aware values are compared by their UTC instants.  Two
naive values compare by wall clock.  (A naive-aware mix raises TypeError
in Python; the embedded code never compares such a pair, and the
comparison is modelled as false there.) -/
def pyLt (a b : PyDT) : Bool :=
  match a, b with
  | .aware wa .chicago _ ma, .aware wb .chicago _ mb =>
      decide (wa < wb) || (decide (wa = wb) && decide (ma < mb))
  | .aware wa ta fa ma, .aware wb tb fb mb =>
      decide (wa - ta.offsetAt wa fa < wb - tb.offsetAt wb fb) ||
        (decide (wa - ta.offsetAt wa fa = wb - tb.offsetAt wb fb) &&
          decide (ma < mb))
  | .naive wa ma, .naive wb mb =>
      decide (wa < wb) || (decide (wa = wb) && decide (ma < mb))
  | _, _ => false

/-- DateTimeWithoutMicroseconds.process_bind_param of models/task.py,
on the None and datetime branches the application exercises (the str
branch only re-normalizes legacy stored strings).  The stored string
YYYY-MM-DD HH:MM:SS is represented by the local wall-clock second count
it denotes: the code attaches LOCAL_TZ when the value is naive, converts
with astimezone to LOCAL_TZ, drops microseconds and formats the wall
clock. -/
def process_bind_param (value : Option PyDT) : Option Int :=
  match value with
  | none => none
  | some v =>
    let v1 := if v.isNaive then v.attachChicago else v
    let v2 := v1.astimezoneChicago.truncMicro
    some v2.wallOf

/-- DateTimeWithoutMicroseconds.process_result_value of models/task.py on
a stored wall-clock string: fromisoformat yields a naive datetime with
zero microseconds, and LOCAL_TZ is attached with replace. -/
def process_result_value (value : Option Int) : Option PyDT :=
  match value with
  | none => none
  | some w => some ((PyDT.naive w 0).attachChicago)

/-- Conversion from UTC resolves the fold so that the offset looked up
from the resulting wall clock and fold equals the offset of the instant. -/
theorem offsetWall_localize_fold (t : Int) :
    chicagoOffsetWallFold (localize t) (foldOfUtc t) = chicagoOffsetUtc t := by
  unfold chicagoOffsetWallFold localize chicagoOffsetUtc foldOfUtc inDstUtc inSecondFold CST CDT
  split_ifs <;> simp_all <;> omega

/-- A wall clock obtained by conversion from UTC is never in the spring
gap: resolving it with fold = false gives back an offset consistent with
the UTC rule, so re-localizing the resolved instant is the identity. -/
theorem offsetUtc_unlocalize (t : Int) :
    chicagoOffsetUtc (localize t - chicagoOffsetWallFold (localize t) false) =
      chicagoOffsetWallFold (localize t) false := by
  unfold chicagoOffsetWallFold localize chicagoOffsetUtc inDstUtc CST CDT
  split_ifs <;> simp_all <;> omega

/-- Re-localizing the fold = false resolution of a localized instant
changes nothing. -/
theorem localize_unlocalize (t : Int) :
    localize (localize t - chicagoOffsetWallFold (localize t) false) = localize t := by
  have h := offsetUtc_unlocalize t
  unfold localize at *
  omega

/-- Storing then reloading a value already of the shape produced by a
reload (Chicago zone, fold false, wall clock of some localized instant)
changes nothing. -/
theorem store_reload_fixed (t : Int) :
    process_result_value (process_bind_param
        (some (PyDT.aware (localize t) PyTz.chicago false 0))) =
      some (PyDT.aware (localize t) PyTz.chicago false 0) := by
  simp [process_bind_param, process_result_value, PyDT.isNaive,
    PyDT.astimezoneChicago, PyTz.offsetAt, PyDT.truncMicro, PyDT.wallOf,
    PyDT.attachChicago, localize_unlocalize t]

/-- C10 is false as stated: the stored string drops the UTC offset, so a
timezone-aware value in the repeated fall-back hour (here the second
occurrence of 2025-11-02 01:30:00 in America/Chicago, instant
1762068600) reloads as the first occurrence (instant 1762065000), a
different instant. -/
theorem roundtrip_changes_instant_in_ambiguous_hour :
    process_result_value (process_bind_param
        (some (PyDT.aware 1762047000 PyTz.chicago true 0))) =
      some (PyDT.aware 1762047000 PyTz.chicago false 0) ∧
    (PyDT.aware 1762047000 PyTz.chicago true 0).utcInstant = 1762068600 ∧
    (PyDT.aware 1762047000 PyTz.chicago false 0).utcInstant = 1762065000 := by
  decide

/-- C10 (amended): for every timezone-aware datetime v whose stored local
wall clock is unambiguous, that is, attaching LOCAL_TZ to the stored
wall clock yields the same UTC offset as the instant of v carries
(this excludes only the repeated fall-back hour, where the second
occurrence reloads as the first), process_result_value after
process_bind_param returns the LOCAL_TZ value with zero microseconds
denoting the same instant as v truncated to whole seconds; and for every
stored value whatsoever the bind-then-result composition is idempotent. -/
theorem roundtrip_instant_preserving_and_idempotent
    (w : Int) (tz : PyTz) (fold : Bool) (mi : Nat)
    (h : chicagoOffsetWallFold (localize (w - tz.offsetAt w fold)) false =
          chicagoOffsetUtc (w - tz.offsetAt w fold)) :
    (process_result_value (process_bind_param (some (PyDT.aware w tz fold mi))) =
        some (PyDT.aware (localize (w - tz.offsetAt w fold)) PyTz.chicago false 0) ∧
      (PyDT.aware (localize (w - tz.offsetAt w fold)) PyTz.chicago false 0).utcInstant =
        (PyDT.aware w tz fold mi).utcInstant) ∧
    (∀ x : Option PyDT,
      process_result_value (process_bind_param (process_result_value (process_bind_param x))) =
        process_result_value (process_bind_param x)) := by
  refine ⟨⟨?_, ?_⟩, ?_⟩
  · simp [process_bind_param, process_result_value, PyDT.isNaive,
      PyDT.astimezoneChicago, PyDT.truncMicro, PyDT.wallOf, PyDT.attachChicago]
  · show localize (w - tz.offsetAt w fold) -
        PyTz.chicago.offsetAt (localize (w - tz.offsetAt w fold)) false =
      w - tz.offsetAt w fold
    have h2 : PyTz.chicago.offsetAt (localize (w - tz.offsetAt w fold)) false =
        chicagoOffsetUtc (w - tz.offsetAt w fold) := h
    rw [h2]
    unfold localize
    omega
  · intro x
    match x with
    | none => rfl
    | some (PyDT.naive w' mi') =>
        have hr : process_result_value (process_bind_param (some (PyDT.naive w' mi'))) =
            some (PyDT.aware (localize (w' - chicagoOffsetWallFold w' false))
              PyTz.chicago false 0) := by
          simp [process_bind_param, process_result_value, PyDT.isNaive,
            PyDT.attachChicago, PyDT.astimezoneChicago, PyTz.offsetAt,
            PyDT.truncMicro, PyDT.wallOf]
        rw [hr, store_reload_fixed]
    | some (PyDT.aware w' tz' fold' mi') =>
        have hr : process_result_value (process_bind_param (some (PyDT.aware w' tz' fold' mi'))) =
            some (PyDT.aware (localize (w' - tz'.offsetAt w' fold'))
              PyTz.chicago false 0) := by
          simp [process_bind_param, process_result_value, PyDT.isNaive,
            PyDT.attachChicago, PyDT.astimezoneChicago, PyTz.offsetAt,
            PyDT.truncMicro, PyDT.wallOf]
        rw [hr, store_reload_fixed]

/-- Witness for the amended C10 theorem at the concrete local time
2025-08-11 01:20:00 (an unambiguous wall clock). -/
theorem roundtrip_instant_preserving_witness :
    process_result_value (process_bind_param
        (some (PyDT.aware 1754875200 PyTz.chicago false 0))) =
      some (PyDT.aware 1754875200 PyTz.chicago false 0) :=
  ((roundtrip_instant_preserving_and_idempotent 1754875200 PyTz.chicago false 0
    (by decide)).1.1).trans (by decide)

/-- A row of the tasks table.  The due_date and created_at columns hold
strings YYYY-MM-DD HH:MM:SS, represented by the local wall-clock second
count they denote. -/
structure DbTask where
  id : Nat
  title : String
  description : Option String
  completed : Bool
  dueWall : Option Int
  createdWall : Int
deriving DecidableEq

/-- Row predicate of the pending filters of models/task.py:
completed == False AND (due_date IS NULL OR due_date >= now).  The SQL
comparison of the stored strings agrees with the wall-clock order, and a
NULL due_date fails the comparison but passes the IS NULL disjunct. -/
def pendingPred (nowWall : Int) (t : DbTask) : Bool :=
  !t.completed &&
    (match t.dueWall with
     | none => true
     | some d => decide (nowWall ≤ d))

/-- Row predicate of the overdue filters of models/task.py:
completed == False AND due_date < now.  A NULL due_date makes the SQL
comparison unknown, so the row is excluded. -/
def overduePred (nowWall : Int) (t : DbTask) : Bool :=
  !t.completed &&
    (match t.dueWall with
     | none => false
     | some d => decide (d < nowWall))

/-- Order on rows used by order_by='date': ascending on the stored due
date string, SQLite placing NULLs first. -/
def dueLe (a b : DbTask) : Prop :=
  match a.dueWall, b.dueWall with
  | none, _ => True
  | some _, none => False
  | some x, some y => x ≤ y

instance : DecidableRel dueLe := fun a b => by
  unfold dueLe
  rcases a.dueWall with _ | x <;> rcases b.dueWall with _ | y <;> infer_instance

instance : IsTotal DbTask dueLe := by
  constructor
  intro a b
  unfold dueLe
  rcases a.dueWall with _ | x <;> rcases b.dueWall with _ | y <;> simp <;> omega

instance : IsTrans DbTask dueLe := by
  constructor
  intro a b c
  unfold dueLe
  rcases a.dueWall with _ | x <;> rcases b.dueWall with _ | y <;>
    rcases c.dueWall with _ | z <;> simp <;> omega

/-- Order on rows used by order_by='title': ascending on the title. -/
def titleLe (a b : DbTask) : Prop := a.title ≤ b.title

instance : DecidableRel titleLe := fun a b =>
  inferInstanceAs (Decidable (a.title ≤ b.title))

instance : IsTotal DbTask titleLe := ⟨fun a b => le_total a.title b.title⟩

instance : IsTrans DbTask titleLe :=
  ⟨fun _ _ _ h1 h2 => le_trans h1 h2⟩

/-- Order on rows used by order_by='created': descending on the stored
creation timestamp. -/
def createdGe (a b : DbTask) : Prop := b.createdWall ≤ a.createdWall

instance : DecidableRel createdGe := fun a b =>
  inferInstanceAs (Decidable (b.createdWall ≤ a.createdWall))

instance : IsTotal DbTask createdGe := ⟨fun a b => le_total b.createdWall a.createdWall⟩

instance : IsTrans DbTask createdGe :=
  ⟨fun _ _ _ h1 h2 => le_trans h2 h1⟩

/-- The shared order_by dispatch of the query helpers in models/task.py:
'date' sorts ascending by due date, 'title' ascending by title,
'created' descending by creation time, anything else leaves the
selection unordered. -/
def applyOrder (order_by : Option String) (l : List DbTask) : List DbTask :=
  if order_by = some "date" then l.insertionSort dueLe
  else if order_by = some "title" then l.insertionSort titleLe
  else if order_by = some "created" then l.insertionSort createdGe
  else l

/-- Task.get_all_tasks of models/task.py. -/
def Task.get_all_tasks (order_by : Option String) (db : List DbTask) : List DbTask :=
  applyOrder order_by db

/-- Task.get_completed_tasks of models/task.py. -/
def Task.get_completed_tasks (order_by : Option String) (db : List DbTask) : List DbTask :=
  applyOrder order_by (db.filter (·.completed))

/-- Task.get_pending_tasks of models/task.py: rows that are not completed
and whose due date is absent or not before now. -/
def Task.get_pending_tasks (order_by : Option String) (db : List DbTask)
    (nowWall : Int) : List DbTask :=
  applyOrder order_by (db.filter (pendingPred nowWall))

/-- Task.get_overdue_tasks of models/task.py: rows that are not completed
and whose due date is before now. -/
def Task.get_overdue_tasks (order_by : Option String) (db : List DbTask)
    (nowWall : Int) : List DbTask :=
  applyOrder order_by (db.filter (overduePred nowWall))

/-- Task.get_pending_tasks_count of models/task.py. -/
def Task.get_pending_tasks_count (db : List DbTask) (nowWall : Int) : Nat :=
  (db.filter (pendingPred nowWall)).length

/-- Task.get_overdue_tasks_count of models/task.py. -/
def Task.get_overdue_tasks_count (db : List DbTask) (nowWall : Int) : Nat :=
  (db.filter (overduePred nowWall)).length

/-- Task.get_completed_tasks_count of models/task.py. -/
def Task.get_completed_tasks_count (db : List DbTask) : Nat :=
  (db.filter (·.completed)).length

/-- Unfolding of the pending row predicate. -/
theorem pendingPred_iff (nowWall : Int) (t : DbTask) :
    pendingPred nowWall t = true ↔
      t.completed = false ∧
        (t.dueWall = none ∨ ∃ d, t.dueWall = some d ∧ nowWall ≤ d) := by
  unfold pendingPred
  rcases h : t.dueWall with _ | d <;> simp [h]

/-- C2 is false as stated: a task that is not completed but whose due
date lies in the past (here due wall clock 0, now wall clock 100) is in
the store, is not completed, and still does not appear in the result of
get_pending_tasks. -/
theorem get_pending_excludes_overdue_counterexample :
    (⟨1, "t", none, false, some 0, 0⟩ : DbTask) ∈
        ([⟨1, "t", none, false, some 0, 0⟩] : List DbTask) ∧
    (⟨1, "t", none, false, some 0, 0⟩ : DbTask).completed = false ∧
    (⟨1, "t", none, false, some 0, 0⟩ : DbTask) ∉
        Task.get_pending_tasks none [⟨1, "t", none, false, some 0, 0⟩] 100 := by
  decide

/-- C2 (amended): get_pending_tasks returns exactly the stored tasks that
are not completed and whose due date is absent or not before the current
time, so a non-completed task with a past due date is excluded; and
get_pending_tasks_count counts exactly the tasks get_pending_tasks
returns. -/
theorem get_pending_tasks_characterization (db : List DbTask) (nowWall : Int)
    (t : DbTask) :
    (t ∈ Task.get_pending_tasks none db nowWall ↔
      t ∈ db ∧ t.completed = false ∧
        (t.dueWall = none ∨ ∃ d, t.dueWall = some d ∧ nowWall ≤ d)) ∧
    Task.get_pending_tasks_count db nowWall =
      (Task.get_pending_tasks none db nowWall).length := by
  refine ⟨?_, rfl⟩
  have hq : Task.get_pending_tasks none db nowWall =
      db.filter (pendingPred nowWall) := rfl
  rw [hq, List.mem_filter, pendingPred_iff]

/-- Each stored task is counted by exactly one of the three status
predicates. -/
theorem statusPartitionPointwise (nowWall : Int) (t : DbTask) :
    ((if pendingPred nowWall t then 1 else 0) +
      (if overduePred nowWall t then 1 else 0) +
      (if t.completed then 1 else 0) : Nat) = 1 := by
  unfold pendingPred overduePred
  rcases h : t.dueWall with _ | d <;> rcases hc : t.completed <;>
    simp [h, hc] <;> by_cases hd : nowWall ≤ d <;> simp [hd]

/-- C8: at a fixed evaluation time every stored task is counted by
exactly one of get_pending_tasks_count (not completed, due date absent
or not before now), get_overdue_tasks_count (not completed, due date
before now) and get_completed_tasks_count (completed), and the three
counts sum to the number of stored tasks. -/
theorem status_counts_partition (db : List DbTask) (nowWall : Int) (t : DbTask) :
    Task.get_pending_tasks_count db nowWall +
        Task.get_overdue_tasks_count db nowWall +
        Task.get_completed_tasks_count db = db.length ∧
    ((if pendingPred nowWall t then 1 else 0) +
      (if overduePred nowWall t then 1 else 0) +
      (if t.completed then 1 else 0) : Nat) = 1 := by
  refine ⟨?_, statusPartitionPointwise nowWall t⟩
  unfold Task.get_pending_tasks_count Task.get_overdue_tasks_count
    Task.get_completed_tasks_count
  induction db with
  | nil => rfl
  | cons u rest ih =>
    have hp := statusPartitionPointwise nowWall u
    simp only [List.filter_cons, List.length_cons]
    by_cases h1 : pendingPred nowWall u <;> by_cases h2 : overduePred nowWall u <;>
      by_cases h3 : u.completed <;> simp [h1, h2, h3] at hp ⊢ <;> omega

/-- Correctness of the shared order_by dispatch: always a permutation of
the selection, sorted by the requested key for the three recognized
values, and untouched for any other value. -/
def ordOK (f : Option String → List DbTask) (sel : List DbTask) : Prop :=
  (∀ ob, (f ob).Perm sel) ∧
  (f (some "date")).Sorted dueLe ∧
  (f (some "title")).Sorted titleLe ∧
  (f (some "created")).Sorted createdGe ∧
  (∀ ob, ob ≠ some "date" → ob ≠ some "title" → ob ≠ some "created" → f ob = sel)

/-- applyOrder only permutes the selection. -/
theorem applyOrder_perm (ob : Option String) (l : List DbTask) :
    (applyOrder ob l).Perm l := by
  unfold applyOrder
  split_ifs <;> first | exact List.perm_insertionSort _ _ | exact List.Perm.refl l

/-- applyOrder satisfies ordOK on any selection. -/
theorem ordOK_applyOrder (sel : List DbTask) :
    ordOK (fun ob => applyOrder ob sel) sel := by
  refine ⟨fun ob => applyOrder_perm ob sel, ?_, ?_, ?_, ?_⟩
  · simpa [applyOrder] using List.sorted_insertionSort dueLe sel
  · simpa [applyOrder] using List.sorted_insertionSort titleLe sel
  · simpa [applyOrder] using List.sorted_insertionSort createdGe sel
  · intro ob h1 h2 h3
    simp [applyOrder, h1, h2, h3]

/-- C6: each of the four query helpers returns a permutation of its
selection; order_by='date' sorts ascending by due date, 'title'
ascending by title, 'created' descending by creation time, and any other
order_by value applies no ordering. -/
theorem query_helpers_ordering (db : List DbTask) (nowWall : Int) :
    ordOK (fun ob => Task.get_all_tasks ob db) db ∧
    ordOK (fun ob => Task.get_completed_tasks ob db) (db.filter (·.completed)) ∧
    ordOK (fun ob => Task.get_pending_tasks ob db nowWall)
      (db.filter (pendingPred nowWall)) ∧
    ordOK (fun ob => Task.get_overdue_tasks ob db nowWall)
      (db.filter (overduePred nowWall)) :=
  ⟨ordOK_applyOrder db, ordOK_applyOrder _, ordOK_applyOrder _, ordOK_applyOrder _⟩

/-- Two-row store used as a concrete instance in witnesses. -/
def exDb : List DbTask :=
  [⟨1, "b", none, false, some 200, 5⟩, ⟨2, "a", none, true, some 100, 7⟩]

/-- Witness for C6 on the concrete store: an unrecognized order_by value
leaves the selection unordered, and order_by='date' yields a list sorted
ascending by due date. -/
theorem query_helpers_ordering_witness :
    Task.get_all_tasks (some "unknown") exDb = exDb ∧
    (Task.get_all_tasks (some "date") exDb).Sorted dueLe := by
  have h := query_helpers_ordering exDb 0
  exact ⟨h.1.2.2.2.2 (some "unknown") (by decide) (by decide) (by decide), h.1.2.1⟩

/-- A Task ORM object as Task.is_overdue and to_dict see it. -/
structure TaskObj where
  id : Nat
  title : String
  description : Option String
  completed : Bool
  due_date : Option PyDT
  created_at : PyDT

/-- Task.is_overdue of models/task.py at UTC instant nowT: False without
a due date, False when completed, otherwise LOCAL_TZ is attached to a
naive due date and the due date is compared against
datetime.now(LOCAL_TZ).replace(microsecond=0). -/
def Task.is_overdue (t : TaskObj) (nowT : Int) : Bool :=
  match t.due_date with
  | none => false
  | some due =>
    if t.completed then false
    else
      let due2 := if due.isNaive then due.attachChicago else due
      pyLt due2 (nowChicago nowT)

/-- The property the claim states for being overdue, written out on the
datetime model: there is a due date, the task is not completed, and the
due date with LOCAL_TZ attached when naive lies strictly before the
current LOCAL_TZ time.  For a naive or LOCAL_TZ due date Python compares
the local wall clocks; for a fixed-offset due date it compares UTC
instants. -/
def overdueSpec (t : TaskObj) (nowT : Int) : Prop :=
  ∃ d, t.due_date = some d ∧ t.completed = false ∧
    (match d with
     | .naive w _ => w < localize nowT
     | .aware w .chicago _ _ => w < localize nowT
     | .aware w (.fixed off) _ _ => w - off < nowT)

/-- The UTC instant of the current LOCAL_TZ time is the current instant. -/
theorem nowInstant_eq (nowT : Int) :
    localize nowT - chicagoOffsetWallFold (localize nowT) (foldOfUtc nowT) = nowT := by
  have h := offsetWall_localize_fold nowT
  unfold localize at *
  omega

/-- C1: is_overdue returns True exactly when the task has a due date, is
not completed, and the due date (with LOCAL_TZ attached when naive) lies
strictly before the current LOCAL_TZ time; in particular a completed
task or a task without a due date is never overdue. -/
theorem is_overdue_iff (t : TaskObj) (nowT : Int) :
    Task.is_overdue t nowT = true ↔ overdueSpec t nowT := by
  unfold Task.is_overdue overdueSpec
  rcases hd : t.due_date with _ | d
  · simp
  · rcases hc : t.completed
    · rcases d with ⟨w, mi⟩ | ⟨w, tz, f, mi⟩
      · simp [hc, PyDT.isNaive, PyDT.attachChicago, pyLt, nowChicago,
          Nat.not_lt_zero]
      · rcases tz with _ | off
        · simp [hc, PyDT.isNaive, pyLt, nowChicago, Nat.not_lt_zero]
        · simp [hc, PyDT.isNaive, pyLt, nowChicago, PyTz.offsetAt,
            nowInstant_eq nowT, Nat.not_lt_zero]
    · simp [hc]

/-- The storing behavior C4 describes, written from the claim: None is
stored as None; otherwise LOCAL_TZ is attached when the value is naive,
the value is converted to LOCAL_TZ, microseconds are dropped, and the
local wall clock of the instant is stored. -/
def bindSpec : Option PyDT → Option Int
  | none => none
  | some v =>
    let a := if v.isNaive then v.attachChicago else v
    some (localize a.utcInstant)

/-- C4: process_bind_param stores exactly what the claim describes: None
maps to None, and a datetime is normalized to LOCAL_TZ (attached when
naive), truncated to whole seconds, and stored as its local wall
clock. -/
theorem process_bind_param_matches_spec (x : Option PyDT) :
    process_bind_param x = bindSpec x := by
  rcases x with _ | (⟨w, mi⟩ | ⟨w, tz, f, mi⟩) <;> rfl

/-- Task.to_dict of models/task.py applied to a stored row: the due date
is the column value read back through process_result_value, and the
creation timestamp reads back as a LOCAL_TZ datetime. -/
structure TaskDict where
  id : Nat
  title : String
  description : Option String
  completed : Bool
  due_date : Option PyDT
  created_at : PyDT
deriving DecidableEq

/-- Serialization of one row for the JSON endpoint. -/
def to_dict (t : DbTask) : TaskDict :=
  { id := t.id, title := t.title, description := t.description,
    completed := t.completed,
    due_date := process_result_value t.dueWall,
    created_at := (PyDT.naive t.createdWall 0).attachChicago }

/-- The JSON body api_tasks returns. -/
structure ApiResp where
  success : Bool
  count : Nat
  tasks : List TaskDict
  filterArg : String
  sortArg : String

/-- The GET /api/tasks handler of task_controller.py: select tasks by the
filter argument, serialize them, and answer with the list, its length as
count, and the echoed parameters.  The handler performs no session add,
commit or delete, so the store is returned unchanged. -/
def api_tasks (filterArg sortArg : String) (db : List DbTask) (nowT : Int) :
    List DbTask × ApiResp :=
  let tasks :=
    if filterArg = "pending" then Task.get_pending_tasks (some sortArg) db (localize nowT)
    else if filterArg = "completed" then Task.get_completed_tasks (some sortArg) db
    else if filterArg = "overdue" then Task.get_overdue_tasks (some sortArg) db (localize nowT)
    else Task.get_all_tasks (some sortArg) db
  let tasks_json := tasks.map to_dict
  (db, { success := true, count := tasks_json.length, tasks := tasks_json,
         filterArg := filterArg, sortArg := sortArg })

/-- C7: a GET on /api/tasks leaves the stored tasks unchanged for every
filter and sort parameter, and the count field of its JSON response
equals the length of the tasks list. -/
theorem api_tasks_readonly_and_count (filterArg sortArg : String)
    (db : List DbTask) (nowT : Int) :
    (api_tasks filterArg sortArg db nowT).1 = db ∧
    (api_tasks filterArg sortArg db nowT).2.count =
      (api_tasks filterArg sortArg db nowT).2.tasks.length :=
  ⟨rfl, rfl⟩

/-- Gregorian leap-year rule. -/
def isLeap (y : Nat) : Bool :=
  (decide (y % 4 = 0) && decide (y % 100 ≠ 0)) || decide (y % 400 = 0)

/-- Length of a month, as the datetime constructor validates it. -/
def daysInMonth (y m : Nat) : Nat :=
  if m = 2 then (if isLeap y then 29 else 28)
  else if m = 4 ∨ m = 6 ∨ m = 9 ∨ m = 11 then 30
  else 31

/-- Day count since 1970-01-01 of a Gregorian date (the standard
days-from-civil computation, valid for years from 1). -/
def daysFromCivil (y m d : Nat) : Int :=
  let y2 := if m ≤ 2 then y - 1 else y
  let era := y2 / 400
  let yoe := y2 - era * 400
  let mp := (m + 9) % 12
  let doy := (153 * mp + 2) / 5 + d - 1
  let doe := yoe * 365 + yoe / 4 - yoe / 100 + doy
  (era * 146097 + doe : Int) - 719468

/-- The calendar fields a strptime match produces, before the datetime
constructor validates them. -/
structure Civil where
  y : Nat
  mo : Nat
  d : Nat
  h : Nat
  mi : Nat
  s : Nat
deriving DecidableEq

/-- The range checks of the datetime constructor (ValueError outside). -/
def validCivil (c : Civil) : Bool :=
  decide (1 ≤ c.y) && decide (c.y ≤ 9999) &&
  decide (1 ≤ c.mo) && decide (c.mo ≤ 12) &&
  decide (1 ≤ c.d) && decide (c.d ≤ daysInMonth c.y c.mo) &&
  decide (c.h ≤ 23) && decide (c.mi ≤ 59) && decide (c.s ≤ 59)

/-- Wall-clock second count of a valid calendar datetime. -/
def wallOfCivil (c : Civil) : Int :=
  daysFromCivil c.y c.mo c.d * 86400 + (c.h * 3600 + c.mi * 60 + c.s : Nat)

/-- Numeric value of a decimal digit character. -/
def dval (c : Char) : Nat := c.toNat - 48

/-- Exactly four digits (the strptime pattern for the year). -/
def m4digits : List Char → Option (Nat × List Char)
  | a :: b :: c :: d :: rest =>
    if a.isDigit ∧ b.isDigit ∧ c.isDigit ∧ d.isDigit then
      some (1000 * dval a + 100 * dval b + 10 * dval c + dval d, rest)
    else none
  | _ => none

/-- The strptime pattern for a month or a 12-hour hour:
two-digit 10 to 12, two-digit 01 to 09, or one digit 1 to 9,
tried in that order. -/
def mMonth12 : List Char → Option (Nat × List Char)
  | a :: b :: rest =>
    if a = '1' ∧ '0' ≤ b ∧ b ≤ '2' then some (10 + dval b, rest)
    else if a = '0' ∧ '1' ≤ b ∧ b ≤ '9' then some (dval b, rest)
    else if '1' ≤ a ∧ a ≤ '9' then some (dval a, b :: rest)
    else none
  | [a] => if '1' ≤ a ∧ a ≤ '9' then some (dval a, []) else none
  | [] => none

/-- The strptime pattern for a day of month: 30 or 31, two-digit 10 to
29, two-digit 01 to 09, or one digit 1 to 9, tried in that order. -/
def mDay31 : List Char → Option (Nat × List Char)
  | a :: b :: rest =>
    if a = '3' ∧ (b = '0' ∨ b = '1') then some (30 + dval b, rest)
    else if (a = '1' ∨ a = '2') ∧ b.isDigit then some (10 * dval a + dval b, rest)
    else if a = '0' ∧ '1' ≤ b ∧ b ≤ '9' then some (dval b, rest)
    else if '1' ≤ a ∧ a ≤ '9' then some (dval a, b :: rest)
    else none
  | [a] => if '1' ≤ a ∧ a ≤ '9' then some (dval a, []) else none
  | [] => none

/-- The strptime pattern for a 24-hour hour: 20 to 23, two-digit 00 to
19, or one digit, tried in that order. -/
def mHour24 : List Char → Option (Nat × List Char)
  | a :: b :: rest =>
    if a = '2' ∧ '0' ≤ b ∧ b ≤ '3' then some (20 + dval b, rest)
    else if (a = '0' ∨ a = '1') ∧ b.isDigit then some (10 * dval a + dval b, rest)
    else if a.isDigit then some (dval a, b :: rest)
    else none
  | [a] => if a.isDigit then some (dval a, []) else none
  | [] => none

/-- The strptime pattern for a minute: two-digit 00 to 59 or one digit. -/
def mMin60 : List Char → Option (Nat × List Char)
  | a :: b :: rest =>
    if '0' ≤ a ∧ a ≤ '5' ∧ b.isDigit then some (10 * dval a + dval b, rest)
    else if a.isDigit then some (dval a, b :: rest)
    else none
  | [a] => if a.isDigit then some (dval a, []) else none
  | [] => none

/-- The strptime pattern for a second: 60 or 61 (leap seconds, later
rejected by the datetime constructor), two-digit 00 to 59, or one
digit. -/
def mSec62 : List Char → Option (Nat × List Char)
  | a :: b :: rest =>
    if a = '6' ∧ (b = '0' ∨ b = '1') then some (60 + dval b, rest)
    else if '0' ≤ a ∧ a ≤ '5' ∧ b.isDigit then some (10 * dval a + dval b, rest)
    else if a.isDigit then some (dval a, b :: rest)
    else none
  | [a] => if a.isDigit then some (dval a, []) else none
  | [] => none

/-- One to six fraction digits (the strptime pattern for microseconds;
the parsed value is discarded because the controller zeroes it). -/
def mFrac (cs : List Char) : Option (List Char) :=
  let ds := cs.takeWhile Char.isDigit
  if ds.length = 0 then none
  else some (cs.drop (min ds.length 6))

/-- The characters the Python regex class for whitespace matches
(ASCII). -/
def isPySpace (c : Char) : Bool :=
  c = ' ' || c = '\t' || c = '\n' || c = '\r' || c = '\x0b' || c = '\x0c'

/-- One or more whitespace characters (strptime turns a blank in the
format into this pattern). -/
def ws1 : List Char → Option (List Char)
  | c :: rest => if isPySpace c then some (rest.dropWhile isPySpace) else none
  | [] => none

/-- A single required literal character. -/
def lit (ch : Char) : List Char → Option (List Char)
  | c :: rest => if c = ch then some rest else none
  | [] => none

/-- The strptime pattern for the AM and PM markers, case-insensitive;
the result is true for PM. -/
def mAmPm : List Char → Option (Bool × List Char)
  | a :: b :: rest =>
    if (a = 'A' ∨ a = 'a') ∧ (b = 'M' ∨ b = 'm') then some (false, rest)
    else if (a = 'P' ∨ a = 'p') ∧ (b = 'M' ∨ b = 'm') then some (true, rest)
    else none
  | _ => none

/-- Format string YYYY-MM-DD, full match required. -/
def fmtYmd (cs : List Char) : Option Civil := do
  let (y, cs) ← m4digits cs
  let cs ← lit '-' cs
  let (mo, cs) ← mMonth12 cs
  let cs ← lit '-' cs
  let (d, cs) ← mDay31 cs
  if cs = [] then pure ⟨y, mo, d, 0, 0, 0⟩ else none

/-- Format string YYYY-MM-DDTHH:MM (datetime-local). -/
def fmtYmdTHM (cs : List Char) : Option Civil := do
  let (y, cs) ← m4digits cs
  let cs ← lit '-' cs
  let (mo, cs) ← mMonth12 cs
  let cs ← lit '-' cs
  let (d, cs) ← mDay31 cs
  let cs ← lit 'T' cs
  let (h, cs) ← mHour24 cs
  let cs ← lit ':' cs
  let (mi, cs) ← mMin60 cs
  if cs = [] then pure ⟨y, mo, d, h, mi, 0⟩ else none

/-- Format string DD/MM/YYYY HH:MM. -/
def fmtDmyHM (cs : List Char) : Option Civil := do
  let (d, cs) ← mDay31 cs
  let cs ← lit '/' cs
  let (mo, cs) ← mMonth12 cs
  let cs ← lit '/' cs
  let (y, cs) ← m4digits cs
  let cs ← ws1 cs
  let (h, cs) ← mHour24 cs
  let cs ← lit ':' cs
  let (mi, cs) ← mMin60 cs
  if cs = [] then pure ⟨y, mo, d, h, mi, 0⟩ else none

/-- Format string DD/MM/YYYY II:MM with AM or PM marker: the 12-hour
value is turned into a 24-hour value the way strptime does. -/
def fmtDmyIMp (cs : List Char) : Option Civil := do
  let (d, cs) ← mDay31 cs
  let cs ← lit '/' cs
  let (mo, cs) ← mMonth12 cs
  let cs ← lit '/' cs
  let (y, cs) ← m4digits cs
  let cs ← ws1 cs
  let (h12, cs) ← mMonth12 cs
  let cs ← lit ':' cs
  let (mi, cs) ← mMin60 cs
  let cs ← ws1 cs
  let (pm, cs) ← mAmPm cs
  let h := if pm then (if h12 ≠ 12 then h12 + 12 else h12)
           else (if h12 = 12 then 0 else h12)
  if cs = [] then pure ⟨y, mo, d, h, mi, 0⟩ else none

/-- Format string DD/MM/YYYY. -/
def fmtDmy (cs : List Char) : Option Civil := do
  let (d, cs) ← mDay31 cs
  let cs ← lit '/' cs
  let (mo, cs) ← mMonth12 cs
  let cs ← lit '/' cs
  let (y, cs) ← m4digits cs
  if cs = [] then pure ⟨y, mo, d, 0, 0, 0⟩ else none

/-- Format string YYYY-MM-DD HH:MM:SS. -/
def fmtYmdHMS (cs : List Char) : Option Civil := do
  let (y, cs) ← m4digits cs
  let cs ← lit '-' cs
  let (mo, cs) ← mMonth12 cs
  let cs ← lit '-' cs
  let (d, cs) ← mDay31 cs
  let cs ← ws1 cs
  let (h, cs) ← mHour24 cs
  let cs ← lit ':' cs
  let (mi, cs) ← mMin60 cs
  let cs ← lit ':' cs
  let (s, cs) ← mSec62 cs
  if cs = [] then pure ⟨y, mo, d, h, mi, s⟩ else none

/-- Format string YYYY-MM-DD HH:MM:SS with fraction digits. -/
def fmtYmdHMSf (cs : List Char) : Option Civil := do
  let (y, cs) ← m4digits cs
  let cs ← lit '-' cs
  let (mo, cs) ← mMonth12 cs
  let cs ← lit '-' cs
  let (d, cs) ← mDay31 cs
  let cs ← ws1 cs
  let (h, cs) ← mHour24 cs
  let cs ← lit ':' cs
  let (mi, cs) ← mMin60 cs
  let cs ← lit ':' cs
  let (s, cs) ← mSec62 cs
  let cs ← lit '.' cs
  let cs ← mFrac cs
  if cs = [] then pure ⟨y, mo, d, h, mi, s⟩ else none

/-- One datetime.strptime call: the format regex must match the whole
string and the datetime constructor must accept the fields; both
failures raise ValueError, which the loop in the source catches. -/
def strptimeAttempt (f : List Char → Option Civil) (cs : List Char) : Option Civil :=
  match f cs with
  | some c => if validCivil c then some c else none
  | none => none

/-- The format attempts of _parse_due_date_flexible, in source order. -/
def tryFormats (cs : List Char) : Option Civil :=
  strptimeAttempt fmtYmd cs <|> strptimeAttempt fmtYmdTHM cs <|>
  strptimeAttempt fmtDmyHM cs <|> strptimeAttempt fmtDmyIMp cs <|>
  strptimeAttempt fmtDmy cs <|> strptimeAttempt fmtYmdHMS cs <|>
  strptimeAttempt fmtYmdHMSf cs

/-- One or two digits, greedy (the regex backtracking on the following
required delimiter, which is never a digit, cannot change the greedy
choice). -/
def m12dig : List Char → Option (Nat × List Char)
  | a :: b :: rest =>
    if a.isDigit ∧ b.isDigit then some (10 * dval a + dval b, rest)
    else if a.isDigit then some (dval a, b :: rest)
    else none
  | [a] => if a.isDigit then some (dval a, []) else none
  | [] => none

/-- Exactly two digits. -/
def m2dig : List Char → Option (Nat × List Char)
  | a :: b :: rest =>
    if a.isDigit ∧ b.isDigit then some (10 * dval a + dval b, rest) else none
  | _ => none

/-- The heuristic prefix regex of _parse_due_date_flexible:
digits/digits/4digits, whitespace, digits:2digits, optional whitespace
and an optional AM or PM marker; anything after the match is ignored. -/
def heurMatch (cs : List Char) :
    Option (Nat × Nat × Nat × Nat × Nat × Option Bool) := do
  let (dd, cs) ← m12dig cs
  let cs ← lit '/' cs
  let (mm, cs) ← m12dig cs
  let cs ← lit '/' cs
  let (yyyy, cs) ← m4digits cs
  let cs ← ws1 cs
  let (hh, cs) ← m12dig cs
  let cs ← lit ':' cs
  let (mins, cs) ← m2dig cs
  let cs2 := cs.dropWhile isPySpace
  match mAmPm cs2 with
  | some (pm, _) => pure (dd, mm, yyyy, hh, mins, some pm)
  | none => pure (dd, mm, yyyy, hh, mins, none)

/-- Word characters for the word-boundary assertions of the
normalization regexes (ASCII). -/
def isWordChar (c : Char) : Bool := c.isAlphanum || c = '_'

/-- Case-insensitive match of one letter given in lower case. -/
def charCI (target c : Char) : Bool := c = target || c = target.toUpper

/-- An optional literal, chosen by the backtracking flag. -/
def litOpt (want : Bool) (ch : Char) (cs : List Char) : Option (List Char) :=
  if want then
    match cs with
    | c :: rest => if c = ch then some rest else none
    | [] => none
  else some cs

/-- An optional single whitespace, chosen by the backtracking flag. -/
def spOpt (want : Bool) (cs : List Char) : Option (List Char) :=
  if want then
    match cs with
    | c :: rest => if isPySpace c then some rest else none
    | [] => none
  else some cs

/-- One choice of the optional parts of the normalization regex for an
AM or PM marker in Spanish or English: letter, optional dot, optional
single whitespace, letter m, optional dot, then the closing word
boundary.  Returns the last character of the match and the rest. -/
def ampmCombo (letter : Char) (cs : List Char) (d1 sp d2 : Bool) :
    Option (Char × List Char) :=
  match cs with
  | c :: cs1 =>
    if charCI letter c then
      match litOpt d1 '.' cs1 with
      | none => none
      | some cs2 =>
        match spOpt sp cs2 with
        | none => none
        | some cs3 =>
          match cs3 with
          | m :: cs4 =>
            if charCI 'm' m then
              match litOpt d2 '.' cs4 with
              | none => none
              | some cs5 =>
                let okEnd :=
                  if d2 then
                    match cs5 with
                    | x :: _ => isWordChar x
                    | [] => false
                  else
                    match cs5 with
                    | x :: _ => !isWordChar x
                    | [] => true
                if okEnd then some ((if d2 then '.' else m), cs5) else none
            else none
          | [] => none
    else none
  | [] => none

/-- A match of the normalization regex at the current position: the
opening word boundary requires the previous character to not be a word
character, and the optional parts are tried in the backtracking order of
the regex engine (each optional part greedy, rightmost backtracked
first). -/
def ampmMatchAt (letter : Char) (prev : Option Char) (cs : List Char) :
    Option (Char × List Char) :=
  if (match prev with | some c => !isWordChar c | none => true) then
    ampmCombo letter cs true true true <|> ampmCombo letter cs true true false <|>
    ampmCombo letter cs true false true <|> ampmCombo letter cs true false false <|>
    ampmCombo letter cs false true true <|> ampmCombo letter cs false true false <|>
    ampmCombo letter cs false false true <|> ampmCombo letter cs false false false
  else none

/-- The scan of re.sub: left to right, non-overlapping, each match
replaced by the replacement text, matching decided on the original
characters.  The fuel is at least the number of characters, and every
step consumes at least one character. -/
def subAmpmGo (letter : Char) (rep : List Char) :
    Nat → Option Char → List Char → List Char
  | 0, _, cs => cs
  | _ + 1, _, [] => []
  | fuel + 1, prev, c :: rest =>
    match ampmMatchAt letter prev (c :: rest) with
    | some (lastC, rest2) => rep ++ subAmpmGo letter rep fuel (some lastC) rest2
    | none => c :: subAmpmGo letter rep fuel (some c) rest

/-- One re.sub pass normalizing a marker written with the given first
letter to the replacement text. -/
def pySub1 (letter : Char) (rep : String) (s : String) : String :=
  ⟨subAmpmGo letter rep.data (s.data.length + 1) none s.data⟩

/-- The two normalization passes of _parse_due_date_flexible: Spanish or
English AM markers become AM, then PM markers become PM. -/
def pySubAmpm (s : String) : String := pySub1 'p' "PM" (pySub1 'a' "AM" s)

/-- Python str.strip with no argument: remove whitespace from both
ends. -/
def pyStrip (s : String) : String :=
  ⟨((s.data.dropWhile isPySpace).reverse.dropWhile isPySpace).reverse⟩

/-- _parse_due_date_flexible of task_controller.py.  The result is
Except: ok none when the string is empty or nothing matches, ok some
when a format or the heuristic produces a valid datetime (microseconds
zeroed and LOCAL_TZ attached by replace), and error when the heuristic
regex matches but the datetime constructor rejects the fields, in which
case the ValueError escapes the function. -/
def parseDueDateFlexible (date_str : String) : Except Unit (Option PyDT) :=
  if date_str = "" then .ok none
  else
    let s := pySubAmpm (pyStrip date_str)
    let cs := s.data
    match tryFormats cs with
    | some c => .ok (some (PyDT.aware (wallOfCivil c) .chicago false 0))
    | none =>
      match heurMatch cs with
      | some (dd, mm, yyyy, hh, mins, ampm) =>
        let hh2 :=
          match ampm with
          | some true => if hh < 12 then hh + 12 else hh
          | some false => if hh = 12 then 0 else hh
          | none => hh
        let c : Civil := ⟨yyyy, mm, dd, hh2, mins, 0⟩
        if validCivil c then .ok (some (PyDT.aware (wallOfCivil c) .chicago false 0))
        else .error ()
      | none => .ok none

deriving instance DecidableEq for Except

/-- C3 describes the intended behavior (and the docstring of the
function), but the code can do a third thing besides returning a parsed
datetime or None: on the input 31/02/2025 10:30 every strptime format
fails (the datetime constructor rejects February 31, a ValueError the
loop catches), yet the heuristic regex matches and its datetime call
raises an uncaught ValueError.  The listed formats themselves are
accepted, producing LOCAL_TZ datetimes with zero microseconds, the
Spanish markers are normalized, and the empty string yields None. -/
theorem parse_due_date_flexible_raises_on_invalid_day :
    parseDueDateFlexible "31/02/2025 10:30" = .error () ∧
    parseDueDateFlexible "" = .ok none ∧
    parseDueDateFlexible "2025-08-11" =
      .ok (some (PyDT.aware 1754870400 PyTz.chicago false 0)) ∧
    parseDueDateFlexible "2025-08-11T01:20" =
      .ok (some (PyDT.aware 1754875200 PyTz.chicago false 0)) ∧
    parseDueDateFlexible "11/08/2025" =
      .ok (some (PyDT.aware 1754870400 PyTz.chicago false 0)) ∧
    parseDueDateFlexible "11/08/2025 01:20" =
      .ok (some (PyDT.aware 1754875200 PyTz.chicago false 0)) ∧
    parseDueDateFlexible "11/08/2025 01:20 AM" =
      .ok (some (PyDT.aware 1754875200 PyTz.chicago false 0)) ∧
    parseDueDateFlexible "11/08/2025 01:20 p. m." =
      .ok (some (PyDT.aware 1754918400 PyTz.chicago false 0)) ∧
    parseDueDateFlexible "11/08/2025 01:20 a. m." =
      .ok (some (PyDT.aware 1754875200 PyTz.chicago false 0)) := by
  refine ⟨?_, ?_, ?_, ?_, ?_, ?_, ?_, ?_, ?_⟩ <;> decide

/-- The outcome of a POST handler, as far as the claims observe it:
re-render the form with a flashed error, redirect after success, let an
exception escape (HTTP 500), or 404 for a missing task. -/
inductive HResp where
  | formError
  | redirectOk
  | raised
  | notFound
deriving DecidableEq

/-- Reading of the completed checkbox: the posted value must be one of
on, true, 1, yes. -/
def readCompletedForm (v : Option String) : Bool :=
  decide (v = some "on") || decide (v = some "true") ||
  decide (v = some "1") || decide (v = some "yes")

/-- The stored form of the current time: binding datetime.now(LOCAL_TZ)
through the column type keeps the local wall clock and drops
microseconds. -/
def nowStored (nowT : Int) : Int := localize ((nowChicago nowT).utcInstant)

/-- The row the POST /tasks/new handler inserts: stripped title, the
stripped description or NULL when empty, the parsed due date through the
column bind processing, the checkbox value, and now as the creation
timestamp. -/
def mkNewTask (db : List DbTask) (title description : String)
    (due : Option PyDT) (completed : Bool) (nowT : Int) : DbTask :=
  { id := db.length + 1,
    title := title,
    description := if description = "" then none else some description,
    completed := completed,
    dueWall := process_bind_param due,
    createdWall := nowStored nowT }

/-- The POST branch of /tasks/new (task_create of task_controller.py):
read and strip the fields, reject an empty title, parse the due date (a
ValueError from the parser escapes), reject a non-empty due date string
that parses to None, reject a due date on a calendar day before today in
LOCAL_TZ (a due date on today passes even when its time already passed),
and otherwise insert the task and redirect. -/
def task_create_post (titleF descF dueF compF : Option String)
    (db : List DbTask) (nowT : Int) : List DbTask × HResp :=
  let title := pyStrip (titleF.getD "")
  let description := pyStrip (descF.getD "")
  let due_date_str := pyStrip (dueF.getD "")
  let completed := readCompletedForm compF
  if title = "" then (db, .formError)
  else
    match parseDueDateFlexible due_date_str with
    | .error _ => (db, .raised)
    | .ok due? =>
      if due_date_str ≠ "" ∧ due? = none then (db, .formError)
      else
        match due? with
        | some due =>
          let due2 := due.truncMicro
          if Int.fdiv due2.wallOf 86400 < Int.fdiv (nowChicago nowT).wallOf 86400 then
            (db, .formError)
          else
            (db ++ [mkNewTask db title description (some due2) completed nowT],
              .redirectOk)
        | none =>
          (db ++ [mkNewTask db title description none completed nowT], .redirectOk)

/-- The update the POST /tasks/id/edit handler applies to the matching
row: title, description or NULL, due date through the column bind
processing, completed flag. -/
def editApply (title description : String) (due2 : Option PyDT)
    (completed : Bool) (tid : Nat) (t : DbTask) : DbTask :=
  if t.id == tid then
    { t with title := title,
             description := if description = "" then none else some description,
             dueWall := process_bind_param due2,
             completed := completed }
  else t

/-- The POST branch of /tasks/id/edit (task_edit of task_controller.py):
404 when the task does not exist, the same title and parse validations
as creation, but no check at all against the current date, and then the
update and a redirect. -/
def task_edit_post (tid : Nat) (titleF descF dueF compF : Option String)
    (db : List DbTask) : List DbTask × HResp :=
  if (db.find? (fun t => t.id == tid)).isNone then (db, .notFound)
  else
    let title := pyStrip (titleF.getD "")
    let description := pyStrip (descF.getD "")
    let due_date_str := pyStrip (dueF.getD "")
    let completed := readCompletedForm compF
    if title = "" then (db, .formError)
    else
      match parseDueDateFlexible due_date_str with
      | .error _ => (db, .raised)
      | .ok due? =>
        if due_date_str ≠ "" ∧ due? = none then (db, .formError)
        else
          (db.map (editApply title description (due?.map PyDT.truncMicro)
              completed tid), .redirectOk)

/-- C5: posting the creation form with a title that strips to empty
creates no task and re-renders the form with an error, whatever the
other fields hold. -/
theorem task_create_empty_title_no_task
    (titleF descF dueF compF : Option String) (db : List DbTask) (nowT : Int)
    (h : pyStrip (titleF.getD "") = "") :
    task_create_post titleF descF dueF compF db nowT = (db, HResp.formError) := by
  unfold task_create_post
  simp [h]

/-- Witness for C5: a whitespace-only title with all other fields set. -/
theorem task_create_empty_title_no_task_witness :
    task_create_post (some "   ") (some "d") (some "2020-01-01") (some "on")
      [] 1750000000 = ([], HResp.formError) :=
  task_create_empty_title_no_task (some "   ") (some "d") (some "2020-01-01")
    (some "on") [] 1750000000 (by decide)

/-- C9: with a nonempty title and a due date string that parses, the
creation handler rejects (no insertion, error rendered) any due date
whose LOCAL_TZ calendar day is before today, accepts any due date on
today regardless of its time of day, and the edit handler applies a
parsed due date unconditionally, with no comparison against today, so an
edit can set a due date on any past day. -/
theorem create_rejects_past_due_edit_does_not
    (titleF descF dueF compF : Option String) (db : List DbTask) (nowT : Int)
    (due : PyDT) (tid : Nat)
    (ht : pyStrip (titleF.getD "") ≠ "")
    (hp : parseDueDateFlexible (pyStrip (dueF.getD "")) = .ok (some due)) :
    (Int.fdiv due.truncMicro.wallOf 86400 < Int.fdiv (nowChicago nowT).wallOf 86400 →
      task_create_post titleF descF dueF compF db nowT = (db, HResp.formError)) ∧
    (Int.fdiv due.truncMicro.wallOf 86400 = Int.fdiv (nowChicago nowT).wallOf 86400 →
      task_create_post titleF descF dueF compF db nowT =
        (db ++ [mkNewTask db (pyStrip (titleF.getD "")) (pyStrip (descF.getD ""))
            (some due.truncMicro) (readCompletedForm compF) nowT],
          HResp.redirectOk)) ∧
    ((db.find? (fun t => t.id == tid)).isSome →
      task_edit_post tid titleF descF dueF compF db =
        (db.map (editApply (pyStrip (titleF.getD "")) (pyStrip (descF.getD ""))
            (some due.truncMicro) (readCompletedForm compF) tid),
          HResp.redirectOk)) := by
  refine ⟨?_, ?_, ?_⟩
  · intro hlt
    unfold task_create_post
    simp [hp, ht, hlt]
  · intro heq
    have hnlt : ¬ (Int.fdiv due.truncMicro.wallOf 86400 <
        Int.fdiv (nowChicago nowT).wallOf 86400) := by omega
    unfold task_create_post
    simp [hp, ht, hnlt]
  · intro hf
    rcases hfind : db.find? (fun t => t.id == tid) with _ | t0
    · rw [hfind] at hf
      simp at hf
    · unfold task_edit_post
      simp [hfind, hp, ht]

/-- One-row store with task id 1 used in the C9 witness. -/
def exDb2 : List DbTask := [⟨1, "old", none, false, none, 0⟩]

/-- Witness for C9 at the instant 1750000000 (2025-06-15 in LOCAL_TZ):
creating with due date 2025-06-14 is rejected, creating with due date
2025-06-15 succeeds although midnight already passed, and editing task 1
to the past due date 2020-01-01 succeeds. -/
theorem create_rejects_past_due_edit_does_not_witness :
    task_create_post (some "Task") none (some "2025-06-14") none exDb2 1750000000 =
      (exDb2, HResp.formError) ∧
    task_create_post (some "Task") none (some "2025-06-15") none exDb2 1750000000 =
      (exDb2 ++ [mkNewTask exDb2 "Task" ""
          (some (PyDT.aware 1749945600 PyTz.chicago false 0)) false 1750000000],
        HResp.redirectOk) ∧
    task_edit_post 1 (some "Task") none (some "2020-01-01") none exDb2 =
      (exDb2.map (editApply "Task" ""
          (some (PyDT.aware 1577836800 PyTz.chicago false 0)) false 1),
        HResp.redirectOk) := by
  refine ⟨?_, ?_, ?_⟩
  · exact (create_rejects_past_due_edit_does_not (some "Task") none
      (some "2025-06-14") none exDb2 1750000000
      (PyDT.aware 1749859200 PyTz.chicago false 0) 1 (by decide) (by decide)).1
      (by decide)
  · exact ((create_rejects_past_due_edit_does_not (some "Task") none
      (some "2025-06-15") none exDb2 1750000000
      (PyDT.aware 1749945600 PyTz.chicago false 0) 1 (by decide) (by decide)).2.1
      (by decide)).trans (by decide)
  · exact ((create_rejects_past_due_edit_does_not (some "Task") none
      (some "2020-01-01") none exDb2 1750000000
      (PyDT.aware 1577836800 PyTz.chicago false 0) 1 (by decide) (by decide)).2.2
      (by decide)).trans (by decide)
